import Mathlib

/-!
Verification of the software 3D rendering pipeline of the Model3D repository
(src/main.rs and src/shaders.rs).

Scalars are modelled as exact rationals standing in for the program's f32
values; square roots use `Rat.sqrt` (the relevant property, nonnegativity,
agrees with the floating-point function).  The noise-sampling capability is an
abstract function carried inside `Uniforms`, matching its injection as an
effectively pure coordinate-to-scalar capability.  Rust's saturating
float-to-integer casts are modelled explicitly.  Fallible operations (the
ring shader's array indexing) return `Option`.
-/

namespace Model3D

/-- Rust saturating-truncating cast from a float scalar to `u8`:
negative values clamp to `0`, values of `255` or more clamp to `255`,
the fractional part truncates. -/
def ratToU8 (q : ℚ) : ℕ :=
  if q ≤ 0 then 0 else min 255 (Int.toNat ⌊q⌋)

/-- Rust saturating-truncating cast from a float scalar to `usize`:
negative values clamp to `0`, huge values saturate at `usize::MAX`. -/
def ratToUsize (q : ℚ) : ℕ :=
  if q ≤ 0 then 0 else min (2 ^ 64 - 1) (Int.toNat ⌊q⌋)

/-- Rust saturating cast from an (already floored) float scalar to `i32`. -/
def ratFloorToI32 (q : ℚ) : ℤ :=
  max (-(2 ^ 31)) (min (2 ^ 31 - 1) ⌊q⌋)

/-- Truncation toward zero, as Rust float-to-integer conversion does. -/
def ratTrunc (q : ℚ) : ℤ :=
  if q < 0 then -⌊-q⌋ else ⌊q⌋

/-- Rust `%` on floats: remainder of the truncated division. -/
def rustRem (a b : ℚ) : ℚ :=
  a - b * (ratTrunc (a / b) : ℚ)

/-- Rust `f32::clamp`: `min hi (max lo v)`. -/
def clampQ (v lo hi : ℚ) : ℚ :=
  min hi (max lo v)

/-- 2-component vector of scalars (`nalgebra_glm::Vec2`). -/
structure Vec2 where
  x : ℚ
  y : ℚ
deriving DecidableEq

/-- The Euclidean norm of a `Vec2` (`magnitude`), via the rational square
root standing in for the f32 square root. -/
def Vec2.magnitude (v : Vec2) : ℚ :=
  Rat.sqrt (v.x * v.x + v.y * v.y)

/-- 3-component vector of scalars (`nalgebra_glm::Vec3`). -/
structure Vec3 where
  x : ℚ
  y : ℚ
  z : ℚ
deriving DecidableEq

instance instAddVec3 : Add Vec3 :=
  ⟨fun a b => ⟨a.x + b.x, a.y + b.y, a.z + b.z⟩⟩

instance instHMulVec3Rat : HMul Vec3 ℚ Vec3 :=
  ⟨fun v s => ⟨v.x * s, v.y * s, v.z * s⟩⟩

/-- 4-component vector of scalars (`nalgebra_glm::Vec4`). -/
structure Vec4 where
  x : ℚ
  y : ℚ
  z : ℚ
  w : ℚ
deriving DecidableEq

/-- Extension of a point of space to homogeneous coordinates with `w = 1`. -/
def Vec4.point (v : Vec3) : Vec4 :=
  ⟨v.x, v.y, v.z, 1⟩

/-- 3×3 matrix of scalars (`nalgebra_glm::Mat3`), row-major fields. -/
structure Mat3 where
  m00 : ℚ
  m01 : ℚ
  m02 : ℚ
  m10 : ℚ
  m11 : ℚ
  m12 : ℚ
  m20 : ℚ
  m21 : ℚ
  m22 : ℚ
deriving DecidableEq

/-- The identity 3×3 matrix (`Mat3::identity`). -/
def Mat3.identity : Mat3 :=
  ⟨1, 0, 0, 0, 1, 0, 0, 0, 1⟩

/-- Matrix transpose. -/
def Mat3.transpose (m : Mat3) : Mat3 :=
  ⟨m.m00, m.m10, m.m20, m.m01, m.m11, m.m21, m.m02, m.m12, m.m22⟩

/-- Determinant by cofactor expansion along the first row. -/
def Mat3.det (m : Mat3) : ℚ :=
  m.m00 * (m.m11 * m.m22 - m.m12 * m.m21)
    - m.m01 * (m.m10 * m.m22 - m.m12 * m.m20)
    + m.m02 * (m.m10 * m.m21 - m.m11 * m.m20)

/-- The adjugate (transposed cofactor) matrix; `adjugate m` divided by
`det m` is the inverse. -/
def Mat3.adjugate (m : Mat3) : Mat3 :=
  ⟨m.m11 * m.m22 - m.m12 * m.m21,
    -(m.m01 * m.m22 - m.m02 * m.m21),
    m.m01 * m.m12 - m.m02 * m.m11,
    -(m.m10 * m.m22 - m.m12 * m.m20),
    m.m00 * m.m22 - m.m02 * m.m20,
    -(m.m00 * m.m12 - m.m02 * m.m10),
    m.m10 * m.m21 - m.m11 * m.m20,
    -(m.m00 * m.m21 - m.m01 * m.m20),
    m.m00 * m.m11 - m.m01 * m.m10⟩

/-- Multiplication of every entry by a scalar. -/
def Mat3.scale (s : ℚ) (m : Mat3) : Mat3 :=
  ⟨s * m.m00, s * m.m01, s * m.m02,
    s * m.m10, s * m.m11, s * m.m12,
    s * m.m20, s * m.m21, s * m.m22⟩

/-- nalgebra's `Mat3::try_inverse`: `Some` of the inverse when the
determinant is nonzero, `None` for a singular matrix. -/
def Mat3.try_inverse (m : Mat3) : Option Mat3 :=
  if m.det = 0 then none else some (Mat3.scale m.det⁻¹ m.adjugate)

instance instHMulMat3Vec3 : HMul Mat3 Vec3 Vec3 :=
  ⟨fun m v =>
    ⟨m.m00 * v.x + m.m01 * v.y + m.m02 * v.z,
      m.m10 * v.x + m.m11 * v.y + m.m12 * v.z,
      m.m20 * v.x + m.m21 * v.y + m.m22 * v.z⟩⟩

/-- 4×4 matrix of scalars (`nalgebra_glm::Mat4`), row-major fields. -/
structure Mat4 where
  m00 : ℚ
  m01 : ℚ
  m02 : ℚ
  m03 : ℚ
  m10 : ℚ
  m11 : ℚ
  m12 : ℚ
  m13 : ℚ
  m20 : ℚ
  m21 : ℚ
  m22 : ℚ
  m23 : ℚ
  m30 : ℚ
  m31 : ℚ
  m32 : ℚ
  m33 : ℚ
deriving DecidableEq

/-- The identity 4×4 matrix (`Mat4::identity`). -/
def Mat4.identity : Mat4 :=
  ⟨1, 0, 0, 0, 0, 1, 0, 0, 0, 0, 1, 0, 0, 0, 0, 1⟩

instance instHMulMat4Mat4 : HMul Mat4 Mat4 Mat4 :=
  ⟨fun a b =>
    ⟨a.m00 * b.m00 + a.m01 * b.m10 + a.m02 * b.m20 + a.m03 * b.m30,
      a.m00 * b.m01 + a.m01 * b.m11 + a.m02 * b.m21 + a.m03 * b.m31,
      a.m00 * b.m02 + a.m01 * b.m12 + a.m02 * b.m22 + a.m03 * b.m32,
      a.m00 * b.m03 + a.m01 * b.m13 + a.m02 * b.m23 + a.m03 * b.m33,
      a.m10 * b.m00 + a.m11 * b.m10 + a.m12 * b.m20 + a.m13 * b.m30,
      a.m10 * b.m01 + a.m11 * b.m11 + a.m12 * b.m21 + a.m13 * b.m31,
      a.m10 * b.m02 + a.m11 * b.m12 + a.m12 * b.m22 + a.m13 * b.m32,
      a.m10 * b.m03 + a.m11 * b.m13 + a.m12 * b.m23 + a.m13 * b.m33,
      a.m20 * b.m00 + a.m21 * b.m10 + a.m22 * b.m20 + a.m23 * b.m30,
      a.m20 * b.m01 + a.m21 * b.m11 + a.m22 * b.m21 + a.m23 * b.m31,
      a.m20 * b.m02 + a.m21 * b.m12 + a.m22 * b.m22 + a.m23 * b.m32,
      a.m20 * b.m03 + a.m21 * b.m13 + a.m22 * b.m23 + a.m23 * b.m33,
      a.m30 * b.m00 + a.m31 * b.m10 + a.m32 * b.m20 + a.m33 * b.m30,
      a.m30 * b.m01 + a.m31 * b.m11 + a.m32 * b.m21 + a.m33 * b.m31,
      a.m30 * b.m02 + a.m31 * b.m12 + a.m32 * b.m22 + a.m33 * b.m32,
      a.m30 * b.m03 + a.m31 * b.m13 + a.m32 * b.m23 + a.m33 * b.m33⟩⟩

instance instHMulMat4Vec4 : HMul Mat4 Vec4 Vec4 :=
  ⟨fun m v =>
    ⟨m.m00 * v.x + m.m01 * v.y + m.m02 * v.z + m.m03 * v.w,
      m.m10 * v.x + m.m11 * v.y + m.m12 * v.z + m.m13 * v.w,
      m.m20 * v.x + m.m21 * v.y + m.m22 * v.z + m.m23 * v.w,
      m.m30 * v.x + m.m31 * v.y + m.m32 * v.z + m.m33 * v.w⟩⟩

/-- nalgebra_glm's `mat4_to_mat3`: the upper-left 3×3 block. -/
def mat4_to_mat3 (m : Mat4) : Mat3 :=
  ⟨m.m00, m.m01, m.m02, m.m10, m.m11, m.m12, m.m20, m.m21, m.m22⟩

/-- Modelled from the spec: the `Color` record of the missing `color.rs` —
packed 24-bit RGB, one byte per channel, no alpha.  Channels are naturals
intended to lie in `[0, 255]`. -/
structure Color where
  r : ℕ
  g : ℕ
  b : ℕ
deriving DecidableEq

/-- Modelled from the spec: `Color::new`, component-wise construction from
byte values. -/
def Color.new (r g b : ℕ) : Color :=
  ⟨r, g, b⟩

/-- Modelled from the spec: `Color::from_float`, conversion from a
normalized floating-point triple, scaled by 255 and clamped. -/
def Color.from_float (r g b : ℚ) : Color :=
  ⟨ratToU8 (r * 255), ratToU8 (g * 255), ratToU8 (b * 255)⟩

/-- Modelled from the spec: `Color::from_hex`, unpacking a 24-bit RGB value
one byte per channel. -/
def Color.from_hex (h : ℕ) : Color :=
  ⟨h / 65536 % 256, h / 256 % 256, h % 256⟩

/-- Modelled from the spec: `Color::lerp`, component-wise linear
interpolation with output clamped to `[0, 255]`. -/
def Color.lerp (a b : Color) (t : ℚ) : Color :=
  ⟨ratToU8 ((a.r : ℚ) + ((b.r : ℚ) - (a.r : ℚ)) * t),
    ratToU8 ((a.g : ℚ) + ((b.g : ℚ) - (a.g : ℚ)) * t),
    ratToU8 ((a.b : ℚ) + ((b.b : ℚ) - (a.b : ℚ)) * t)⟩

/-- Modelled from the spec: scaling of a color by a scalar factor,
component-wise, clamped to `[0, 255]`. -/
instance instHMulColorRat : HMul Color ℚ Color :=
  ⟨fun c s => ⟨ratToU8 ((c.r : ℚ) * s), ratToU8 ((c.g : ℚ) * s), ratToU8 ((c.b : ℚ) * s)⟩⟩

/-- Modelled from the spec: component-wise saturating addition of colors,
clamped to `[0, 255]`. -/
instance instAddColor : Add Color :=
  ⟨fun a b => ⟨min 255 (a.r + b.r), min 255 (a.g + b.g), min 255 (a.b + b.b)⟩⟩

/-- Modelled from the spec: the coordinate-to-scalar noise-sampling
capability injected into `Uniforms` (FastNoiseLite with a fixed
configuration), an effectively pure function of the coordinates. -/
structure Noise where
  get_noise_3d : ℚ → ℚ → ℚ → ℚ
  get_noise_2d : ℚ → ℚ → ℚ

/-- Modelled from the spec: the per-frame `Uniforms` record of the missing
`uniforms.rs` — the four pipeline matrices, the frame counter and the noise
capability. -/
structure Uniforms where
  model_matrix : Mat4
  view_matrix : Mat4
  projection_matrix : Mat4
  viewport_matrix : Mat4
  time : ℕ
  noise : Noise

/-- Modelled from the spec: the `Vertex` record of the missing `vertex.rs` —
object-space attributes plus the two derived fields populated by the vertex
shader. -/
structure Vertex where
  position : Vec3
  normal : Vec3
  tex_coords : Vec2
  color : Color
  transformed_position : Vec3
  transformed_normal : Vec3
deriving DecidableEq

/-- Modelled from the spec: the `Fragment` record of the missing
`fragment.rs` — screen position, interpolated depth, interpolated
object-space position, normal, base color and scalar light intensity. -/
structure Fragment where
  position : Vec2
  depth : ℚ
  vertex_position : Vec3
  normal : Vec3
  color : Color
  intensity : ℚ
deriving DecidableEq

/-- The normal-transform computation of the vertex shader (shaders.rs lines
54–55): `mat4_to_mat3(model).transpose().try_inverse().unwrap_or(identity)`. -/
def normal_transform_matrix (model_matrix : Mat4) : Mat3 :=
  ((mat4_to_mat3 model_matrix).transpose.try_inverse).getD Mat3.identity

/-- The vertex shader of shaders.rs (lines 13–67): noise displacement along
the normal, projection·view·model transform, perspective divide, viewport
mapping, and the normal transform, on top of the original attributes. -/
def vertex_shader (vertex : Vertex) (uniforms : Uniforms) : Vertex :=
  let zoom : ℚ := 5
  let displacement_amount := uniforms.noise.get_noise_3d
    (vertex.position.x * zoom) (vertex.position.y * zoom) (vertex.position.z * zoom)
  let displaced_position := vertex.position + vertex.normal * displacement_amount * ((1/2) : ℚ)
  let transformed := uniforms.projection_matrix * uniforms.view_matrix * uniforms.model_matrix *
    (⟨displaced_position.x, displaced_position.y, displaced_position.z, 1⟩ : Vec4)
  let w := transformed.w
  let ndc_position : Vec4 := ⟨transformed.x / w, transformed.y / w, transformed.z / w, 1⟩
  let screen_position := uniforms.viewport_matrix * ndc_position
  let model_mat3 := mat4_to_mat3 uniforms.model_matrix
  let normal_matrix := (model_mat3.transpose.try_inverse).getD Mat3.identity
  let transformed_normal := normal_matrix * vertex.normal
  { position := vertex.position
    normal := vertex.normal
    tex_coords := vertex.tex_coords
    color := vertex.color
    transformed_position := ⟨screen_position.x, screen_position.y, screen_position.z⟩
    transformed_normal := transformed_normal }

/-- The object-space position displaced along the vertex's own normal by the
noise sample at the position scaled by the fixed zoom factor 5, times (1/2)
(specification of steps 1–2 of the vertex shader). -/
def noise_displaced_position (vertex : Vertex) (uniforms : Uniforms) : Vec3 :=
  vertex.position + vertex.normal * uniforms.noise.get_noise_3d
    (vertex.position.x * 5) (vertex.position.y * 5) (vertex.position.z * 5) * ((1/2) : ℚ)

/-- Perspective division of a homogeneous position by its own `w`. -/
def perspective_divide (v : Vec4) : Vec4 :=
  ⟨v.x / v.w, v.y / v.w, v.z / v.w, 1⟩

/-- Application of the viewport matrix to a normalized-device-coordinate
position, keeping the three screen components. -/
def viewport_map (m : Mat4) (v : Vec4) : Vec3 :=
  let s := m * v
  ⟨s.x, s.y, s.z⟩

/-- The sun shader (shaders.rs lines 120–125): a fixed golden base color and
an emission value, independent of fragment and uniforms. -/
def sun_shader : Color × ℕ :=
  (Color.from_float 1 (9/10) (1/2), 100)

/-- The four band colors of the ring shader. -/
def band_colors : List Color :=
  [Color.from_hex 0xB0C4DE, Color.from_hex 0x708090,
    Color.from_hex 0xA9A9A9, Color.from_hex 0xF5F5DC]

/-- The ring shader (shaders.rs lines 85–117).  The band palette access is
Rust indexing, which panics when out of bounds; the `Option` layer makes
that partiality explicit — `none` is the panic that never happens.
The `i32::abs` of the band index is modelled by `Int.natAbs`, which agrees
with it on the saturated cast's whole range except `i32::MIN`, a value the
nonnegative distance can never produce. -/
def ring_shader (fragment : Fragment) : Option (Color × ℕ) :=
  let position : Vec2 := ⟨fragment.vertex_position.x, fragment.vertex_position.z⟩
  let distance_from_center := position.magnitude
  let num_bands : ℕ := 4
  let max_distance : ℚ := 1
  let band_width := max_distance / (num_bands : ℚ)
  let band_index : ℤ := ratFloorToI32 (distance_from_center / band_width)
  (band_colors[(band_index.natAbs % num_bands) % band_colors.length]?).map fun color =>
    let edge_distance := rustRem distance_from_center band_width / band_width
    let smooth_edge := clampQ (1 - edge_distance) 0 1
    (color * smooth_edge, 0)

/-- The earth shader (shaders.rs lines 127–182): a biome base layer from
thresholded 3D noise, two displaced cloud layers, blended together. -/
def earth_shader (fragment : Fragment) (uniforms : Uniforms) : Color :=
  let land_color := Color.new 34 139 34
  let ocean_color := Color.new 30 144 255
  let snow_color := Color.new 255 250 250
  let cloud_color := Color.new 255 255 255
  let zoom : ℚ := 15
  let noise_value := uniforms.noise.get_noise_3d
    (fragment.vertex_position.x * zoom) (fragment.vertex_position.y * zoom)
    (fragment.vertex_position.z * zoom)
  let base_color :=
    if noise_value < -(3/10) then
      ocean_color.lerp (Color.new 25 105 210) ((noise_value + (3/10)) / (3/10))
    else if noise_value > (7/10) then
      land_color.lerp snow_color ((noise_value - (7/10)) / (3/10))
    else
      ocean_color.lerp land_color ((noise_value + (3/10)) / 1)
  let cloud_zoom1 : ℚ := 10
  let displacement_x1 := uniforms.noise.get_noise_2d
    (fragment.vertex_position.x * cloud_zoom1) (fragment.vertex_position.y * cloud_zoom1) * (3/10)
  let displacement_z1 := uniforms.noise.get_noise_2d
    (fragment.vertex_position.z * cloud_zoom1) (fragment.vertex_position.y * cloud_zoom1) * (3/10)
  let cloud_noise_value1 := uniforms.noise.get_noise_3d
    (fragment.vertex_position.x * cloud_zoom1 + displacement_x1)
    (fragment.vertex_position.y * cloud_zoom1)
    (fragment.vertex_position.z * cloud_zoom1 + displacement_z1)
  let cloud_opacity1 := max 0 (min 1 (cloud_noise_value1 * (1/2) + (1/2)))
  let cloud_zoom2 : ℚ := 8
  let displacement_x2 := uniforms.noise.get_noise_2d
    (fragment.vertex_position.x * cloud_zoom2) (fragment.vertex_position.y * cloud_zoom2) * (4/10)
  let displacement_z2 := uniforms.noise.get_noise_2d
    (fragment.vertex_position.z * cloud_zoom2) (fragment.vertex_position.y * cloud_zoom2) * (4/10)
  let cloud_noise_value2 := uniforms.noise.get_noise_3d
    (fragment.vertex_position.x * cloud_zoom2 + displacement_x2)
    (fragment.vertex_position.y * cloud_zoom2)
    (fragment.vertex_position.z * cloud_zoom2 + displacement_z2)
  let cloud_opacity2 := max 0 (min 1 (cloud_noise_value2 * (1/2) + (1/2)))
  let combined_clouds := cloud_color * cloud_opacity1 + cloud_color * cloud_opacity2
  base_color.lerp combined_clouds (1/2)

/-- The fixed spatial frequency of the Mars base surface noise
(`let zoom = 20` in mars_shader). -/
def mars_zoom : ℚ := 20

/-- The fixed spatial frequency of the Mars crater noise
(`let crater_zoom = 8` in mars_shader). -/
def mars_crater_zoom : ℚ := 8

/-- The mars shader (shaders.rs lines 185–214): a rocky base layer from one
noise sample, and crater detail from a second noise sample thresholded at
−(3/10) and blended into the base. -/
def mars_shader (fragment : Fragment) (uniforms : Uniforms) : Color :=
  let base_color := Color.new 139 69 19
  let crater_color := Color.new 105 54 30
  let rocky_color := Color.new 169 86 30
  let noise_value := uniforms.noise.get_noise_2d
    (fragment.vertex_position.x * mars_zoom) (fragment.vertex_position.y * mars_zoom)
  let base_layer := base_color.lerp rocky_color (noise_value * (1/2) + (1/2))
  let crater_noise_value := uniforms.noise.get_noise_2d
    (fragment.vertex_position.x * mars_crater_zoom) (fragment.vertex_position.y * mars_crater_zoom)
  if crater_noise_value < -(3/10) then
    base_layer.lerp crater_color ((-crater_noise_value - (3/10)) / (7/10))
  else
    base_layer

/-- The jupiter shader (shaders.rs lines 216–219): a fixed example color. -/
def jupiter_shader (_fragment : Fragment) (_uniforms : Uniforms) : Color :=
  Color.new 255 200 0

/-- The saturn shader (shaders.rs lines 222–238): a radial band test on the
hypotenuse of the x and y object-space coordinates. -/
def saturn_shader (fragment : Fragment) (_uniforms : Uniforms) : Color :=
  let planet_color := Color.new 255 225 180
  let ring_color := Color.new 220 220 220
  let distance_from_center := Rat.sqrt
    (fragment.vertex_position.x * fragment.vertex_position.x +
      fragment.vertex_position.y * fragment.vertex_position.y)
  let ring_width : ℚ := 5
  let ring_threshold : ℚ := 10
  if distance_from_center > ring_threshold ∧ rustRem distance_from_center ring_width < 1 then
    ring_color
  else
    planet_color

/-- The mercury shader (shaders.rs lines 276–296): a crater threshold on one
noise sample, and the chosen palette color scaled by the fragment's
interpolated light intensity. -/
def mercury_shader (fragment : Fragment) (uniforms : Uniforms) : Color :=
  let base_color := Color.new 169 169 169
  let crater_color := Color.new 105 105 105
  let zoom : ℚ := 20
  let noise_value := uniforms.noise.get_noise_2d
    (fragment.vertex_position.x * zoom) (fragment.vertex_position.y * zoom)
  let color := if noise_value < -(2/10) then crater_color else base_color
  color * fragment.intensity

/-- The venus shader (shaders.rs lines 298–309): a blend of two palette
colors by the absolute value of one noise sample; no lighting term. -/
def venus_shader (fragment : Fragment) (uniforms : Uniforms) : Color :=
  let base_color := Color.new 218 165 32
  let cloud_color := Color.new 255 228 181
  let zoom : ℚ := 8
  let noise_value := uniforms.noise.get_noise_2d
    (fragment.vertex_position.x * zoom) (fragment.vertex_position.y * zoom)
  base_color.lerp cloud_color |noise_value|

/-- The uranus shader (shaders.rs lines 313–324): a blend of two palette
colors by one noise sample. -/
def uranus_shader (fragment : Fragment) (uniforms : Uniforms) : Color :=
  let base_color := Color.new 173 216 230
  let highlight_color := Color.new 224 255 255
  let zoom : ℚ := 5
  let noise_value := uniforms.noise.get_noise_2d
    (fragment.vertex_position.x * zoom) (fragment.vertex_position.y * zoom)
  base_color.lerp highlight_color noise_value

/-- The fragment-shader dispatch `select_shader` (shaders.rs lines 70–83):
body identifiers 0–8 select the per-body shaders, any other identifier falls
through to the sun shader.  The `Option` layer records the only possible
panic, the ring shader's palette indexing; every other arm is total. -/
def select_shader (index : ℕ) (fragment : Fragment) (uniforms : Uniforms) : Option Color :=
  match index with
  | 0 => some sun_shader.1
  | 1 => some (mercury_shader fragment uniforms)
  | 2 => some (venus_shader fragment uniforms)
  | 3 => some (earth_shader fragment uniforms)
  | 4 => some (mars_shader fragment uniforms)
  | 5 => some (jupiter_shader fragment uniforms)
  | 6 => some (saturn_shader fragment uniforms)
  | 7 => some (uranus_shader fragment uniforms)
  | 8 => (ring_shader fragment).map Prod.fst
  | _ => some sun_shader.1

/-- The Primitive Assembly Stage of `render` (main.rs lines 32–42): the loop
over indices `0, 3, 6, …` pushing `[v[i], v[i+1], v[i+2]]` whenever
`i + 2 < len`, written as structural recursion on the vertex sequence. -/
def assemble {α : Type} : List α → List (α × α × α)
  | a :: b :: c :: rest => (a, b, c) :: assemble rest
  | _ => []

/-- Modelled from the spec: the `Framebuffer` record of the missing
`framebuffer.rs` — color and depth buffers (total functions of the pixel
coordinates), a background color and the current-draw-color register. -/
structure Framebuffer where
  width : ℕ
  height : ℕ
  background_color : Color
  current_color : Color
  color_buffer : ℕ → ℕ → Color
  depth_buffer : ℕ → ℕ → ℚ

/-- Modelled from the spec: `writePoint` of the missing `framebuffer.rs` —
no-op outside `[0,width)×[0,height)`, otherwise a strict-less depth-tested
write of the current draw color.  (The spec's non-finite-depth guard has no
rational counterpart.) -/
def Framebuffer.point (fb : Framebuffer) (x y : ℕ) (depth : ℚ) : Framebuffer :=
  if x < fb.width ∧ y < fb.height ∧ depth < fb.depth_buffer x y then
    { fb with
      color_buffer := fun i j => if i = x ∧ j = y then fb.current_color else fb.color_buffer i j
      depth_buffer := fun i j => if i = x ∧ j = y then depth else fb.depth_buffer i j }
  else
    fb

/-- The Fragment Processing Stage of `render` for one fragment (main.rs
lines 50–61): the screen coordinates are cast to `usize` with Rust's
saturating cast, and only when both are within the framebuffer bounds is the
current color set to the shaded color and the depth-tested write performed.
The shaded color is a parameter here: main.rs computes it with the
`fragment_shader` symbol, which no source file defines. -/
def process_fragment (fb : Framebuffer) (fragment : Fragment) (shaded : Color) : Framebuffer :=
  let x := ratToUsize fragment.position.x
  let y := ratToUsize fragment.position.y
  if x < fb.width ∧ y < fb.height then
    ({ fb with current_color := shaded }).point x y fragment.depth
  else
    fb

/-- The band-palette index computed by the ring shader: the floored
distance-to-band-width ratio, saturated to `i32`, absolute value, reduced
modulo the band count and the palette length. -/
def ring_band_index (fragment : Fragment) : ℕ :=
  ((ratFloorToI32
      ((⟨fragment.vertex_position.x, fragment.vertex_position.z⟩ : Vec2).magnitude /
        (1 / ((4 : ℕ) : ℚ)))).natAbs % 4) % band_colors.length

/-- The edge-fade factor computed by the ring shader: one minus the
within-band position, clamped to `[0, 1]`. -/
def ring_smooth_edge (fragment : Fragment) : ℚ :=
  clampQ (1 -
    rustRem (⟨fragment.vertex_position.x, fragment.vertex_position.z⟩ : Vec2).magnitude
        (1 / ((4 : ℕ) : ℚ)) /
      (1 / ((4 : ℕ) : ℚ))) 0 1

/-- The palette color chosen by the mercury shader before its lighting
factor: the crater color below the noise cutoff, the base color otherwise. -/
def mercury_surface_color (fragment : Fragment) (uniforms : Uniforms) : Color :=
  if uniforms.noise.get_noise_2d (fragment.vertex_position.x * 20)
      (fragment.vertex_position.y * 20) < -(2/10) then
    Color.new 105 105 105
  else
    Color.new 169 169 169

/-- The palette blend computed by the venus shader: surface and cloud colors
interpolated by the absolute noise value. -/
def venus_surface_color (fragment : Fragment) (uniforms : Uniforms) : Color :=
  (Color.new 218 165 32).lerp (Color.new 255 228 181)
    |uniforms.noise.get_noise_2d (fragment.vertex_position.x * 8) (fragment.vertex_position.y * 8)|

/-- The rocky base layer of the mars shader: base and rocky colors
interpolated by the remapped base-frequency noise sample. -/
def mars_base_layer (fragment : Fragment) (uniforms : Uniforms) : Color :=
  (Color.new 139 69 19).lerp (Color.new 169 86 30)
    (uniforms.noise.get_noise_2d (fragment.vertex_position.x * mars_zoom)
      (fragment.vertex_position.y * mars_zoom) * (1/2) + (1/2))

/-- The secondary (crater) noise sample of the mars shader, taken at the
crater frequency. -/
def mars_crater_noise (fragment : Fragment) (uniforms : Uniforms) : ℚ :=
  uniforms.noise.get_noise_2d (fragment.vertex_position.x * mars_crater_zoom)
    (fragment.vertex_position.y * mars_crater_zoom)

/-- A concrete noise capability that returns zero everywhere, for witness
evaluations. -/
def zero_noise : Noise :=
  ⟨fun _ _ _ => 0, fun _ _ => 0⟩

/-- Concrete uniforms (identity matrices, zero noise) for witness
evaluations. -/
def test_uniforms : Uniforms :=
  { model_matrix := Mat4.identity
    view_matrix := Mat4.identity
    projection_matrix := Mat4.identity
    viewport_matrix := Mat4.identity
    time := 0
    noise := zero_noise }

/-- A concrete fragment at the origin with zero light intensity. -/
def test_fragment : Fragment :=
  { position := ⟨0, 0⟩
    depth := 0
    vertex_position := ⟨0, 0, 0⟩
    normal := ⟨0, 0, 1⟩
    color := Color.new 0 0 0
    intensity := 0 }

/-- A concrete fragment whose screen x-coordinate is negative (off the left
edge of the screen) and whose y-coordinate is in range. -/
def oob_fragment : Fragment :=
  { position := ⟨-5, 2⟩
    depth := 1
    vertex_position := ⟨0, 0, 0⟩
    normal := ⟨0, 0, 1⟩
    color := Color.new 0 0 0
    intensity := 1 }

/-- A concrete fragment whose screen x-coordinate exceeds the framebuffer
width. -/
def far_fragment : Fragment :=
  { position := ⟨900, 2⟩
    depth := 1
    vertex_position := ⟨0, 0, 0⟩
    normal := ⟨0, 0, 1⟩
    color := Color.new 0 0 0
    intensity := 1 }

/-- A concrete 800×600 framebuffer in its post-clear state: every color
cell holds the background color 0x333355 and every depth cell the far
sentinel. -/
def test_framebuffer : Framebuffer :=
  { width := 800
    height := 600
    background_color := Color.new 51 51 85
    current_color := Color.new 0 0 0
    color_buffer := fun _ _ => Color.new 51 51 85
    depth_buffer := fun _ _ => 100000 }

/-- A concrete model matrix: uniform scaling by 2 of the linear block. -/
def c3_model_matrix : Mat4 :=
  ⟨2, 0, 0, 0, 0, 2, 0, 0, 0, 0, 2, 0, 0, 0, 0, 1⟩

/-- The inverse of the upper 3×3 block of `c3_model_matrix`. -/
def c3_block_inverse : Mat3 :=
  ⟨1/2, 0, 0, 0, 1/2, 0, 0, 0, 1/2⟩

/-! Theorems.  The claim theorems below settle the claims of the
specification against the embedded program; the unnamed lemmas before them
are shared infrastructure. -/

lemma clampQ_le_hi (v lo hi : ℚ) : clampQ v lo hi ≤ hi :=
  min_le_left _ _

lemma lo_le_clampQ (v lo hi : ℚ) (h : lo ≤ hi) : lo ≤ clampQ v lo hi :=
  le_min h (le_max_left _ _)

lemma ring_band_index_lt (fragment : Fragment) :
    ring_band_index fragment < band_colors.length :=
  Nat.mod_lt _ (by decide)

lemma ring_shader_isSome (fragment : Fragment) : (ring_shader fragment).isSome = true := by
  show ((band_colors[ring_band_index fragment]?).map _).isSome = true
  rw [List.getElem?_eq_getElem (ring_band_index_lt fragment)]
  rfl

lemma select_shader_zero_eq (fragment : Fragment) (uniforms : Uniforms) :
    select_shader 0 fragment uniforms = some sun_shader.1 := rfl

lemma select_shader_overflow_eq (n : ℕ) (fragment : Fragment) (uniforms : Uniforms) :
    select_shader (n + 9) fragment uniforms = some sun_shader.1 := rfl

/-- C9: for every fragment, the ring shader's band index taken modulo the
band count lies within the four-entry palette, so the palette access always
succeeds and the shader returns one of the four palette colors scaled by an
edge factor clamped to `[0, 1]`. -/
theorem ring_shader_palette_safe (fragment : Fragment) :
    ring_band_index fragment < band_colors.length ∧
    ring_shader fragment =
      some (band_colors.getD (ring_band_index fragment) (Color.new 0 0 0) *
        ring_smooth_edge fragment, 0) ∧
    0 ≤ ring_smooth_edge fragment ∧ ring_smooth_edge fragment ≤ 1 := by
  have hidx := ring_band_index_lt fragment
  refine ⟨hidx, ?_, lo_le_clampQ _ _ _ (by norm_num), clampQ_le_hi _ _ _⟩
  show (band_colors[ring_band_index fragment]?).map _ =
    some (band_colors.getD (ring_band_index fragment) (Color.new 0 0 0) *
      ring_smooth_edge fragment, 0)
  rw [List.getElem?_eq_getElem hidx, Option.map_some']
  rw [List.getD_eq_getElem?_getD, List.getElem?_eq_getElem hidx, Option.getD_some]
  rfl

/-- C1: the fragment-shader dispatch is total — it returns a color for every
integer body identifier — and every out-of-range identifier (9 or more)
yields exactly the color of the designated default body, identifier 0, on
the same fragment and uniforms. -/
theorem select_shader_total_and_default (index : ℕ) (fragment : Fragment) (uniforms : Uniforms) :
    (select_shader index fragment uniforms).isSome = true ∧
    (9 ≤ index → select_shader index fragment uniforms = select_shader 0 fragment uniforms) := by
  constructor
  · match index with
    | 0 => rfl
    | 1 => rfl
    | 2 => rfl
    | 3 => rfl
    | 4 => rfl
    | 5 => rfl
    | 6 => rfl
    | 7 => rfl
    | 8 =>
      show ((ring_shader fragment).map Prod.fst).isSome = true
      rw [Option.isSome_map']
      exact ring_shader_isSome fragment
    | n + 9 => rfl
  · intro h
    match index, h with
    | n + 9, _ =>
      exact (select_shader_overflow_eq n fragment uniforms).trans
        (select_shader_zero_eq fragment uniforms).symm

/-- C1 witness: at the out-of-range identifier 42 and concrete fragment and
uniforms, the dispatch returns a color and agrees with identifier 0. -/
theorem select_shader_total_and_default_witness :
    (select_shader 42 test_fragment test_uniforms).isSome = true ∧
    select_shader 42 test_fragment test_uniforms = select_shader 0 test_fragment test_uniforms :=
  ⟨(select_shader_total_and_default 42 test_fragment test_uniforms).1,
    (select_shader_total_and_default 42 test_fragment test_uniforms).2 (by norm_num)⟩

/-- C10: the dispatch for body identifier 0 (the sun) returns the same
fixed color on any two invocations, whatever the fragments and uniforms —
the output is independent of position, normal, intensity, time and noise. -/
theorem sun_dispatch_two_run (f1 f2 : Fragment) (u1 u2 : Uniforms) :
    select_shader 0 f1 u1 = select_shader 0 f2 u2 :=
  (select_shader_zero_eq f1 u1).trans (select_shader_zero_eq f2 u2).symm

lemma Mat3.det_transpose (m : Mat3) : m.transpose.det = m.det := by
  simp only [Mat3.transpose, Mat3.det]
  ring

lemma Mat3.adjugate_transpose (m : Mat3) : m.transpose.adjugate = m.adjugate.transpose := by
  simp only [Mat3.transpose, Mat3.adjugate, Mat3.mk.injEq]
  refine ⟨?_, ?_, ?_, ?_, ?_, ?_, ?_, ?_, ?_⟩ <;> ring

lemma Mat3.scale_transpose (s : ℚ) (m : Mat3) :
    (Mat3.scale s m).transpose = Mat3.scale s m.transpose := rfl

lemma try_inverse_transpose (m : Mat3) :
    m.transpose.try_inverse = (m.try_inverse).map Mat3.transpose := by
  unfold Mat3.try_inverse
  rw [Mat3.det_transpose]
  by_cases h : m.det = 0
  · simp [h]
  · simp [h, Mat3.adjugate_transpose, Mat3.scale_transpose]

/-- C3: for every model matrix, the normal-transform matrix used by the
vertex shader equals the transpose of the inverse of the model matrix's
upper 3×3 block whenever that block is invertible, and the identity matrix
when the block is singular (`try_inverse` returns `none`); the computation
is total either way. -/
theorem normal_matrix_inverse_transpose (M : Mat4) :
    (∀ N, (mat4_to_mat3 M).try_inverse = some N → normal_transform_matrix M = N.transpose) ∧
    ((mat4_to_mat3 M).try_inverse = none → normal_transform_matrix M = Mat3.identity) := by
  constructor
  · intro N h
    unfold normal_transform_matrix
    rw [try_inverse_transpose, h]
    rfl
  · intro h
    unfold normal_transform_matrix
    rw [try_inverse_transpose, h]
    rfl

/-- C3 witness: for the concrete scaling-by-2 model matrix, whose linear
block is invertible with inverse the scaling by 1/2, the normal-transform
matrix is exactly the transpose of that inverse. -/
theorem normal_matrix_inverse_transpose_witness :
    (mat4_to_mat3 c3_model_matrix).try_inverse = some c3_block_inverse ∧
    normal_transform_matrix c3_model_matrix = c3_block_inverse.transpose := by
  have h : (mat4_to_mat3 c3_model_matrix).try_inverse = some c3_block_inverse := by
    norm_num [mat4_to_mat3, c3_model_matrix, Mat3.try_inverse, Mat3.det, Mat3.scale,
      Mat3.adjugate, c3_block_inverse, Mat3.mk.injEq]
  exact ⟨h, (normal_matrix_inverse_transpose c3_model_matrix).1 c3_block_inverse h⟩

/-- C6: the screen-space position computed by the vertex shader is exactly
the viewport mapping of the perspective division of the
projection·view·model transform applied to the noise-displaced position —
the position is displaced along the vertex's own normal by the noise sample
at the position scaled by the fixed zoom, times 0.5, before any matrix is
applied. -/
theorem vertex_shader_pipeline_order (vertex : Vertex) (uniforms : Uniforms) :
    (vertex_shader vertex uniforms).transformed_position =
      viewport_map uniforms.viewport_matrix
        (perspective_divide
          (uniforms.projection_matrix * uniforms.view_matrix * uniforms.model_matrix *
            Vec4.point (noise_displaced_position vertex uniforms))) := rfl

/-- C8: the vertex returned by the vertex shader carries the input vertex's
object-space position, normal, texture coordinates and base color
unchanged; only the two derived fields are recomputed. -/
theorem vertex_shader_preserves_attributes (vertex : Vertex) (uniforms : Uniforms) :
    (vertex_shader vertex uniforms).position = vertex.position ∧
    (vertex_shader vertex uniforms).normal = vertex.normal ∧
    (vertex_shader vertex uniforms).tex_coords = vertex.tex_coords ∧
    (vertex_shader vertex uniforms).color = vertex.color :=
  ⟨rfl, rfl, rfl, rfl⟩

lemma assemble_length {α : Type} : ∀ vs : List α, (assemble vs).length = vs.length / 3
  | [] => by simp [assemble]
  | [_] => by simp [assemble]
  | [_, _] => by simp [assemble]
  | _ :: _ :: _ :: rest => by
    simp only [assemble, List.length_cons, assemble_length rest]
    omega

lemma assemble_get {α : Type} :
    ∀ (vs : List α) (k : ℕ) (a b c : α),
      vs[3 * k]? = some a → vs[3 * k + 1]? = some b → vs[3 * k + 2]? = some c →
      (assemble vs)[k]? = some (a, b, c)
  | [], _, _, _, _, h1, _, _ => by simp at h1
  | [x], k, a, b, c, _, h2, _ => by
    rw [List.getElem?_eq_none (by simp only [List.length_singleton]; omega)] at h2
    exact absurd h2 (by simp)
  | [x, y], k, a, b, c, _, _, h3 => by
    rw [List.getElem?_eq_none
      (by simp only [List.length_cons, List.length_nil]; omega)] at h3
    exact absurd h3 (by simp)
  | x :: y :: z :: rest, 0, a, b, c, h1, h2, h3 => by
    rw [show 3 * 0 = 0 from rfl, List.getElem?_cons_zero, Option.some.injEq] at h1
    rw [show 3 * 0 + 1 = 0 + 1 from rfl, List.getElem?_cons_succ,
      List.getElem?_cons_zero, Option.some.injEq] at h2
    rw [show 3 * 0 + 2 = 0 + 1 + 1 from rfl, List.getElem?_cons_succ,
      List.getElem?_cons_succ, List.getElem?_cons_zero, Option.some.injEq] at h3
    subst h1
    subst h2
    subst h3
    simp [assemble]
  | x :: y :: z :: rest, k + 1, a, b, c, h1, h2, h3 => by
    rw [show 3 * (k + 1) = 3 * k + 1 + 1 + 1 from by ring, List.getElem?_cons_succ,
      List.getElem?_cons_succ, List.getElem?_cons_succ] at h1
    rw [show 3 * (k + 1) + 1 = 3 * k + 1 + 1 + 1 + 1 from by ring, List.getElem?_cons_succ,
      List.getElem?_cons_succ, List.getElem?_cons_succ] at h2
    rw [show 3 * (k + 1) + 2 = 3 * k + 2 + 1 + 1 + 1 from by ring, List.getElem?_cons_succ,
      List.getElem?_cons_succ, List.getElem?_cons_succ] at h3
    simp only [assemble, List.getElem?_cons_succ]
    exact assemble_get rest k a b c (by simpa using h1) (by simpa using h2) h3

/-- C4: primitive assembly of a vertex sequence of length n produces exactly
⌊n/3⌋ triangles, the k-th consisting of the vertices at indices 3k, 3k+1,
3k+2 in order; a trailing group of fewer than three vertices contributes
nothing. -/
theorem assemble_stride3 {α : Type} (vs : List α) :
    (assemble vs).length = vs.length / 3 ∧
    ∀ (k : ℕ) (a b c : α),
      vs[3 * k]? = some a → vs[3 * k + 1]? = some b → vs[3 * k + 2]? = some c →
      (assemble vs)[k]? = some (a, b, c) :=
  ⟨assemble_length vs, fun k a b c h1 h2 h3 => assemble_get vs k a b c h1 h2 h3⟩

/-- C4 witness: a five-vertex sequence assembles into one triangle made of
its first three vertices, the trailing two being discarded. -/
theorem assemble_stride3_witness :
    (assemble [10, 20, 30, 40, 50]).length = ([10, 20, 30, 40, 50] : List ℕ).length / 3 ∧
    (assemble [10, 20, 30, 40, 50])[0]? = some (10, 20, 30) :=
  ⟨(assemble_stride3 ([10, 20, 30, 40, 50] : List ℕ)).1,
    (assemble_stride3 ([10, 20, 30, 40, 50] : List ℕ)).2 0 10 20 30 rfl rfl rfl⟩

lemma Color.hMul_def (c : Color) (s : ℚ) :
    c * s = ⟨ratToU8 ((c.r : ℚ) * s), ratToU8 ((c.g : ℚ) * s), ratToU8 ((c.b : ℚ) * s)⟩ := rfl

/-- C2 counterexample: the venus shader — a lit, non-emissive body — returns
its palette color unmodulated.  At a concrete fragment with light intensity
0 and zero noise it returns the base palette color itself, although the
claimed diffuse scaling by that intensity would have changed it. -/
theorem venus_shader_unmodulated_cex :
    test_fragment.intensity = 0 ∧
    venus_shader test_fragment test_uniforms = Color.new 218 165 32 ∧
    Color.new 218 165 32 * test_fragment.intensity ≠ Color.new 218 165 32 := by
  refine ⟨rfl, ?_, ?_⟩
  · norm_num [venus_shader, test_fragment, test_uniforms, zero_noise, Color.lerp,
      Color.new, ratToU8, Nat.min_def]
    decide
  · norm_num [test_fragment, Color.new, ratToU8, Color.hMul_def]

/-- C2 as amended: of the two lit-body shaders named by the claim's sources,
the mercury shader scales its palette color by the fragment's interpolated
light intensity, while the venus shader returns its palette blend
unmodulated by any lighting term. -/
theorem lit_shader_modulation (fragment : Fragment) (uniforms : Uniforms) :
    mercury_shader fragment uniforms =
      mercury_surface_color fragment uniforms * fragment.intensity ∧
    venus_shader fragment uniforms = venus_surface_color fragment uniforms :=
  ⟨rfl, rfl⟩

/-- C5 counterexample: a fragment with a negative screen x-coordinate is not
dropped — Rust's saturating float-to-usize cast clamps the coordinate to 0,
the bounds guard passes, and the depth-tested write lands in the
framebuffer's column 0. -/
theorem fragment_negative_coordinate_written_cex :
    oob_fragment.position.x < 0 ∧
    (process_fragment test_framebuffer oob_fragment (Color.new 255 255 255)).color_buffer 0 2 =
      Color.new 255 255 255 ∧
    test_framebuffer.color_buffer 0 2 ≠ Color.new 255 255 255 := by
  refine ⟨by norm_num [oob_fragment], ?_, by simp [test_framebuffer, Color.new]⟩
  norm_num [process_fragment, test_framebuffer, oob_fragment, ratToUsize,
    Framebuffer.point, Color.new, Nat.min_def]
  decide

/-- C5 as amended: the fragment-processing stage drops a fragment exactly
when a coordinate, after the saturating cast (negative values clamping
to 0), is at or beyond the framebuffer dimension; otherwise it proceeds to
the depth-tested write at the cast coordinates. -/
theorem process_fragment_guard (fb : Framebuffer) (fragment : Fragment) (shaded : Color) :
    (ratToUsize fragment.position.x < fb.width ∧ ratToUsize fragment.position.y < fb.height →
      process_fragment fb fragment shaded =
        ({ fb with current_color := shaded }).point (ratToUsize fragment.position.x)
          (ratToUsize fragment.position.y) fragment.depth) ∧
    (fb.width ≤ ratToUsize fragment.position.x ∨ fb.height ≤ ratToUsize fragment.position.y →
      process_fragment fb fragment shaded = fb) := by
  constructor
  · intro h
    simp only [process_fragment]
    rw [if_pos h]
  · intro h
    simp only [process_fragment]
    rw [if_neg (by omega)]

/-- C5 witness: a fragment at x = 900 on the 800-wide framebuffer is
dropped, and the negative-x fragment proceeds to the write at its cast
coordinates. -/
theorem process_fragment_guard_witness :
    process_fragment test_framebuffer far_fragment (Color.new 255 255 255) = test_framebuffer ∧
    process_fragment test_framebuffer oob_fragment (Color.new 255 255 255) =
      ({ test_framebuffer with current_color := Color.new 255 255 255 }).point
        (ratToUsize oob_fragment.position.x) (ratToUsize oob_fragment.position.y)
        oob_fragment.depth :=
  ⟨(process_fragment_guard test_framebuffer far_fragment (Color.new 255 255 255)).2
      (Or.inl (by norm_num [far_fragment, test_framebuffer, ratToUsize, Nat.min_def])),
    (process_fragment_guard test_framebuffer oob_fragment (Color.new 255 255 255)).1
      (by norm_num [oob_fragment, test_framebuffer, ratToUsize, Nat.min_def])⟩

/-- C7 counterexample: the mars shader's crater noise is sampled at
coordinate scale 8, which is lower — not higher — than the base surface
noise's scale 20. -/
theorem mars_crater_lower_frequency_cex : mars_crater_zoom < mars_zoom := by
  norm_num [mars_crater_zoom, mars_zoom]

/-- C7 as amended: the mars shader takes its secondary crater noise sample
at a lower spatial frequency (scale 8) than the base sample (scale 20),
thresholds it against the fixed cutoff −0.3, blends it into the base color
when below the cutoff, and returns the base color unchanged otherwise. -/
theorem mars_shader_crater_blend (fragment : Fragment) (uniforms : Uniforms) :
    mars_shader fragment uniforms =
      (if mars_crater_noise fragment uniforms < -(3/10) then
        (mars_base_layer fragment uniforms).lerp (Color.new 105 54 30)
          ((-mars_crater_noise fragment uniforms - (3/10)) / (7/10))
      else mars_base_layer fragment uniforms) ∧
    mars_crater_zoom < mars_zoom :=
  ⟨rfl, by norm_num [mars_crater_zoom, mars_zoom]⟩

end Model3D
